import Mathlib

/-!
# Verification of the AIVoiceTranslator browser-test harness

Shallow embedding of the UI verification harness found in the repository's
test scripts, together with proofs of the specified properties:

* `MockMediaRecorder` — the in-page media-recorder mock injected by
  `inject_audio_mock` in `python_full_e2e_test.py` (the JavaScript class
  `MockMediaRecorder` inside `mock_script`).
* the scenario-runner / result-aggregator loop of
  `playwright_ui_tests.py::run_tests`,
* the unittest-based runner of `remote_selenium_tests.py::run_tests` and
  `backup/testing/selenium_ui_tests.py::run_tests`,
* the `element_exists` condition wait,
* the ordered-fallback session acquisition of
  `backup/testing/selenium_ui_tests.py::BenedictaitorUITests.setUpClass`,
* the guaranteed-teardown structure of
  `python_full_e2e_test.py::run_e2e_test`.
-/

namespace AIVoiceTranslator

/-! ## Mock Injector: `MockMediaRecorder` from `inject_audio_mock`

The JavaScript class keeps a `state` string (`'inactive' | 'recording' |
'paused'`), a `timer` holding the handle returned by `setInterval`, and
event handlers.  We embed the instance state together with the page's timer
environment: `liveTimers` is the list of `setInterval` timers that have been
created and not yet cancelled by `clearInterval`, each as
`(handle, intervalMs)`.  `events` records the notifications fired on the
instance's handlers (`onstart`/`onstop`/`onpause`/`onresume`), assuming the
application under test installed them.  Browser timer handles are positive,
so fresh handles start at 1 (the JS guard `if (this.timer)` is truthiness
on the handle). -/

structure MockMediaRecorder where
  state : String
  timer : Option Nat
  liveTimers : List (Nat × Nat)
  nextId : Nat
  events : List String
deriving Repr, DecidableEq

/-- The constructor: `state = 'inactive'`, `timer = null`, no live timer. -/
def newMockMediaRecorder : MockMediaRecorder :=
  { state := "inactive", timer := none, liveTimers := [], nextId := 1, events := [] }

/-- `const interval = timeslice || 1000;` — JavaScript `||` treats both a
missing argument and `0` as falsy. -/
def intervalOfTimeslice : Option Nat → Nat
  | none => 1000
  | some 0 => 1000
  | some n => n

/-- `MockMediaRecorder.start(timeslice)`: unconditionally sets
`state = 'recording'`, fires `onstart`, and
`this.timer = setInterval(..., interval)` — there is no guard against the
state already being `'recording'`, so the previous handle (if any) is
overwritten and its timer stays live. -/
def MockMediaRecorder.start (r : MockMediaRecorder) (timeslice : Option Nat) :
    MockMediaRecorder :=
  let interval := intervalOfTimeslice timeslice
  { r with
    state := "recording"
    events := r.events ++ ["start"]
    timer := some r.nextId
    liveTimers := r.liveTimers ++ [(r.nextId, interval)]
    nextId := r.nextId + 1 }

/-- `MockMediaRecorder.stop()`: `if (this.state === 'inactive') return;`
then `state = 'inactive'`, `if (this.timer) { clearInterval(this.timer);
this.timer = null; }`, and fires `onstop`. -/
def MockMediaRecorder.stop (r : MockMediaRecorder) : MockMediaRecorder :=
  if r.state = "inactive" then r
  else
    { r with
      state := "inactive"
      timer := none
      liveTimers :=
        match r.timer with
        | some t => r.liveTimers.filter (fun p => p.1 ≠ t)
        | none => r.liveTimers
      events := r.events ++ ["stop"] }

/-- `MockMediaRecorder.pause()`: sets `state = 'paused'` and fires
`onpause`; the timer fields are not touched. -/
def MockMediaRecorder.pause (r : MockMediaRecorder) : MockMediaRecorder :=
  { r with state := "paused", events := r.events ++ ["pause"] }

/-- `MockMediaRecorder.resume()`: sets `state = 'recording'` and fires
`onresume`; the timer fields are not touched. -/
def MockMediaRecorder.resume (r : MockMediaRecorder) : MockMediaRecorder :=
  { r with state := "recording", events := r.events ++ ["resume"] }

/-- Each live `setInterval` timer fires its callback once per elapsed
interval, and the callback unconditionally emits one synthetic
`dataavailable` chunk — it never consults `this.state`.  So the number of
chunks emitted per timer tick is the number of live timers. -/
def emissionsPerTick (r : MockMediaRecorder) : Nat :=
  r.liveTimers.length

/-! ## Scenario Runner and Result Aggregator

A scenario step, from the runner's point of view, either completes
returning a truthy value, completes returning `False` (only
`test_transcription_display` in `playwright_ui_tests.py` does this), raises
an `AssertionError` (a failed `assert`/`assertTrue`/`assertEqual`/`fail`),
or raises any other exception. -/

inductive StepOutcome where
  | passed
  | returnedFalse
  | raisedAssertion (msg : String)
  | raisedOther (msg : String)
deriving Repr, DecidableEq

def StepOutcome.isPassed : StepOutcome → Bool
  | passed => true
  | _ => false

def StepOutcome.isReturnedFalse : StepOutcome → Bool
  | returnedFalse => true
  | _ => false

def StepOutcome.isRaised : StepOutcome → Bool
  | raisedAssertion _ => true
  | raisedOther _ => true
  | _ => false

/-- The `results` dict of `playwright_ui_tests.py::run_tests` (lines
193–199).  Note there is no `skipped` key.  `test_details` entries are
`(test_name, status, message)`; Python dict insertion order is the loop
order and the registered test names are distinct literals, so a list of
entries is faithful. -/
structure PlaywrightResults where
  tests_run : Nat
  failures : Nat
  errors : Nat
  success : Bool
  test_details : List (String × String × String)
deriving Repr, DecidableEq

/-- The dict literal `{"tests_run": 0, "failures": 0, "errors": 0,
"success": True, "test_details": {}}`. -/
def initialPlaywrightResults : PlaywrightResults :=
  { tests_run := 0, failures := 0, errors := 0, success := true, test_details := [] }

/-- The keys of that dict; no later statement adds a new top-level key. -/
def playwrightReportKeys : List String :=
  ["tests_run", "failures", "errors", "success", "test_details"]

/-- One iteration of the `for test_name, test_func in tests:` loop in
`playwright_ui_tests.py::run_tests` (lines 233–251): `tests_run` is
incremented first; a step returning `False` increments `failures` and
records a `FAIL` detail; any exception — `AssertionError` included — is
caught by the single `except Exception` clause, increments `errors`, and
records an `ERROR` detail. -/
def playwrightStep (acc : PlaywrightResults) (t : String × StepOutcome) :
    PlaywrightResults :=
  let acc := { acc with tests_run := acc.tests_run + 1 }
  match t.2 with
  | StepOutcome.passed => acc
  | StepOutcome.returnedFalse =>
      { acc with
        failures := acc.failures + 1
        success := false
        test_details := acc.test_details ++ [(t.1, "FAIL", "Test returned False")] }
  | StepOutcome.raisedAssertion m =>
      { acc with
        errors := acc.errors + 1
        success := false
        test_details := acc.test_details ++ [(t.1, "ERROR", m)] }
  | StepOutcome.raisedOther m =>
      { acc with
        errors := acc.errors + 1
        success := false
        test_details := acc.test_details ++ [(t.1, "ERROR", m)] }

/-- `playwright_ui_tests.py::run_tests`: the whole test loop over the
registered `(name, func)` list. -/
def playwright_run_tests (tests : List (String × StepOutcome)) : PlaywrightResults :=
  tests.foldl playwrightStep initialPlaywrightResults

/-- The detail entry a single scenario contributes to `test_details`
(none when it passes). -/
def playwrightDetailEntry : String × StepOutcome → Option (String × String × String)
  | (_, StepOutcome.passed) => none
  | (name, StepOutcome.returnedFalse) => some (name, "FAIL", "Test returned False")
  | (name, StepOutcome.raisedAssertion m) => some (name, "ERROR", m)
  | (name, StepOutcome.raisedOther m) => some (name, "ERROR", m)

/-! ## The unittest-based runners
(`remote_selenium_tests.py` and `backup/testing/selenium_ui_tests.py`)

`unittest.TextTestRunner().run(suite)` runs every test method of the class
in order; for each test it calls `startTest` (incrementing `testsRun`),
catches the test's `failureException` (`AssertionError`) via `addFailure`
(appending `(test, traceback)` to `result.failures`) and any other
exception via `addError` (appending to `result.errors`).  A test method's
return value is ignored.  No test here is decorated as skipped or as an
expected failure, so `result.skipped` stays empty and `wasSuccessful()` is
`len(failures) == len(errors) == 0`. -/

@[ext]
structure UnittestResult where
  testsRun : Nat
  failures : List (String × String)
  errors : List (String × String)
  skipped : List String
deriving Repr, DecidableEq

/-- One test method's run, as recorded by the unittest result object. -/
def unittestStep (acc : UnittestResult) (t : String × StepOutcome) : UnittestResult :=
  let acc := { acc with testsRun := acc.testsRun + 1 }
  match t.2 with
  | StepOutcome.raisedAssertion m => { acc with failures := acc.failures ++ [(t.1, m)] }
  | StepOutcome.raisedOther m => { acc with errors := acc.errors ++ [(t.1, m)] }
  | _ => acc

def unittest_run (tests : List (String × StepOutcome)) : UnittestResult :=
  tests.foldl unittestStep { testsRun := 0, failures := [], errors := [], skipped := [] }

def UnittestResult.wasSuccessful (r : UnittestResult) : Bool :=
  r.failures.length == 0 && r.errors.length == 0

/-- The entry a test contributes to `result.failures` (an `AssertionError`). -/
def assertionEntry : String × StepOutcome → Option (String × String)
  | (name, StepOutcome.raisedAssertion m) => some (name, m)
  | _ => none

/-- The entry a test contributes to `result.errors` (any other exception). -/
def otherErrorEntry : String × StepOutcome → Option (String × String)
  | (name, StepOutcome.raisedOther m) => some (name, m)
  | _ => none

/-- `remote_selenium_tests.py::run_tests` lines 322–327: `for test, error
in result.failures + result.errors:` with `status = "FAIL" if test in
[f[0] for f in result.failures] else "ERROR"`. -/
def remoteTestDetails (r : UnittestResult) : List (String × String × String) :=
  (r.failures ++ r.errors).map fun te =>
    (te.1, if r.failures.any (fun f => f.1 == te.1) then "FAIL" else "ERROR", te.2)

/-- The `results_data` report of `remote_selenium_tests.py::run_tests`
(lines 312–331); `backup/testing/selenium_ui_tests.py::run_tests` is
identical. -/
structure RemoteReportData where
  tests_run : Nat
  failures : Nat
  errors : Nat
  skipped : Nat
  success : Bool
  test_details : List (String × String × String)
deriving Repr, DecidableEq

def remote_run_tests (tests : List (String × StepOutcome)) : RemoteReportData :=
  let result := unittest_run tests
  { tests_run := result.testsRun
    failures := result.failures.length
    errors := result.errors.length
    skipped := result.skipped.length
    success := result.wasSuccessful
    test_details := remoteTestDetails result }

/-- The keys of the `results_data` dict in the selenium-based runners. -/
def remoteReportKeys : List String :=
  ["tests_run", "failures", "errors", "skipped", "success", "test_details"]

/-! ## Condition Poller

What one predicate evaluation can do at a given poll tick. -/

inductive PredOutcome where
  | truthy
  | falsy
  | raisesError (msg : String)
deriving Repr, DecidableEq

/-- The only failure a completed wait can surface. -/
inductive WaitError where
  | timeoutError (elapsedTicks : Nat)
deriving Repr, DecidableEq

/-- Modelled from the spec: the condition-polling engine itself —
`WebDriverWait(driver, timeout).until(...)` — is selenium library code and
is not under `src/`; only its callers (`element_exists` and the scenario
bodies) are.  Following §4.1: the predicate is re-evaluated once per poll
tick; a truthy result returns immediately; an application error raised by
the predicate while evaluating is swallowed and the predicate retried; when
the tick budget is exhausted the wait fails with `TimeoutError{elapsed}`.
The result is paired with the number of predicate evaluations performed. -/
def waitUntilLoop (pred : Nat → PredOutcome) :
    Nat → Nat → Except WaitError Unit × Nat
  | 0, tick => (Except.error (WaitError.timeoutError tick), 0)
  | fuel + 1, tick =>
    match pred tick with
    | PredOutcome.truthy => (Except.ok (), 1)
    | _ =>
      let r := waitUntilLoop pred fuel (tick + 1)
      (r.1, r.2 + 1)

def waitUntil (pred : Nat → PredOutcome) (timeoutTicks : Nat) :
    Except WaitError Unit × Nat :=
  waitUntilLoop pred timeoutTicks 0

/-- `element_exists` from `remote_selenium_tests.py` (lines 92–102) and
`backup/testing/selenium_ui_tests.py` (lines 80–90): wraps the wait in
`try/except`, returning `True` when the wait succeeded and `False` on any
exception. -/
def element_exists (pred : Nat → PredOutcome) (timeoutTicks : Nat) : Bool :=
  match (waitUntil pred timeoutTicks).1 with
  | Except.ok _ => true
  | Except.error _ => false

/-! ## Session Manager: ordered-fallback acquisition -/

inductive StrategyOutcome where
  | succeeds (sessionId : Nat)
  | fails (errMsg : String)
deriving Repr, DecidableEq

/-- `BenedictaitorUITests.setUpClass`
(`backup/testing/selenium_ui_tests.py` lines 48–67): try the Node.js
chromedriver binary; on exception print the failure and fall back to
`webdriver_manager`; on a second exception print it and `raise` — the bare
`raise` re-raises only the second exception.  Returns the acquired session
or the raised error, paired with the printed diagnostic lines. -/
def setUpClassAcquire (primary secondary : StrategyOutcome) :
    Except String Nat × List String :=
  let log := ["Setting up ChromeDriver..."]
  match primary with
  | StrategyOutcome.succeeds s => (Except.ok s, log ++ ["ChromeDriver setup complete."])
  | StrategyOutcome.fails e =>
    let log := log ++ ["Error using Node.js ChromeDriver: " ++ e,
      "Falling back to webdriver_manager..."]
    match secondary with
    | StrategyOutcome.succeeds s => (Except.ok s, log ++ ["ChromeDriver setup complete."])
    | StrategyOutcome.fails e2 =>
      (Except.error e2, log ++ ["Error with webdriver_manager: " ++ e2])

/-- Whether `needle` occurs as a contiguous substring of `hay` (used to ask
whether a surfaced error message carries another failure's message). -/
def containsSubstr (hay needle : String) : Bool :=
  decide (needle.toList <:+: hay.toList)

/-! ## Scoped acquisition with guaranteed teardown: `run_e2e_test` -/

inductive E2EAction where
  | createDriver
  | errorScreenshot
  | quitDriver
  | stopServer
deriving Repr, DecidableEq

/-- One statement of the `try` body of `run_e2e_test`: it either performs
some driver actions or raises. -/
inductive StepResult where
  | ok (acts : List E2EAction)
  | raises (msg : String)
deriving Repr, DecidableEq

/-- Sequential execution of the `try` body: steps run in order until the
first raise; returns the raised message (if any) and the actions
performed. -/
def runSteps : List StepResult → Option String × List E2EAction
  | [] => (none, [])
  | StepResult.ok acts :: rest =>
    let r := runSteps rest
    (r.1, acts ++ r.2)
  | StepResult.raises m :: _ => (some m, [])

/-- `run_e2e_test` (`python_full_e2e_test.py` lines 232–359): `driver =
None`; the `try` body runs (the `webdriver.Chrome(...)` call is the
`createDriver` action, after which the `driver` variable is set); the
`except Exception` clause saves an error screenshot if `driver` is set and
re-raises the exception; the `finally` clause quits the driver if `driver`
is set and always stops the server. -/
def run_e2e_test (steps : List StepResult) : Except String Unit × List E2EAction :=
  let body := runSteps steps
  let driverCreated := body.2.contains E2EAction.createDriver
  match body.1 with
  | some m =>
    (Except.error m,
      body.2 ++ (if driverCreated then [E2EAction.errorScreenshot] else []) ++
        (if driverCreated then [E2EAction.quitDriver] else []) ++ [E2EAction.stopServer])
  | none =>
    (Except.ok (),
      body.2 ++ (if driverCreated then [E2EAction.quitDriver] else []) ++
        [E2EAction.stopServer])

/-- `BenedictaitorRemoteTests.tearDownClass` (`remote_selenium_tests.py`
lines 76–81): `if hasattr(cls, 'driver'): cls.driver.quit()`. -/
def tearDownClass (hasDriver : Bool) : List E2EAction :=
  if hasDriver then [E2EAction.quitDriver] else []

/-! ## Theorems about the Mock Injector -/

/-- C4 (counterexample): calling `start()` twice without an intervening
`stop()` does NOT log-and-no-op on the second call — the second `start`
registers a second concurrently firing interval timer (two live timers)
and fires a second `started` notification. -/
theorem c4_counterexample :
    ((newMockMediaRecorder.start (some 1000)).start (some 1000)).liveTimers.length = 2 ∧
    ((newMockMediaRecorder.start (some 1000)).start (some 1000)).events = ["start", "start"] ∧
    ((newMockMediaRecorder.start (some 1000)).start (some 1000)).state = "recording" :=
  ⟨rfl, rfl, rfl⟩

/-- C4 (amended): `MockMediaRecorder.start` has no already-recording guard.
Called while the state is `'recording'`, it fires another `started`
notification, registers a second interval timer, and overwrites the stored
handle, so the previously live timer leaks: it is still live even after a
subsequent `stop()` (which cancels only the handle currently stored). -/
theorem c4_double_start_leaks_timer (r : MockMediaRecorder) (ts : Option Nat)
    (_hrec : r.state = "recording") :
    (r.start ts).state = "recording" ∧
    (r.start ts).events = r.events ++ ["start"] ∧
    (r.start ts).timer = some r.nextId ∧
    (r.start ts).liveTimers = r.liveTimers ++ [(r.nextId, intervalOfTimeslice ts)] ∧
    ∀ t iv, r.timer = some t → t ≠ r.nextId → (t, iv) ∈ r.liveTimers →
      (t, iv) ∈ ((r.start ts).stop).liveTimers := by
  refine ⟨rfl, rfl, rfl, rfl, ?_⟩
  intro t iv ht htne hmem
  simp only [MockMediaRecorder.stop, MockMediaRecorder.start]
  rw [if_neg (by simp)]
  simp only [List.mem_filter, List.mem_append]
  exact ⟨Or.inl hmem, by simpa using fun h => htne h⟩

/-- C4 (witness): a recorder started once is `'recording'`; starting it a
second time and then stopping leaves the first timer (handle 1) live. -/
theorem c4_double_start_leaks_timer_witness :
    (newMockMediaRecorder.start (some 1000)).state = "recording" ∧
    (1, 1000) ∈ (((newMockMediaRecorder.start (some 1000)).start (some 500)).stop).liveTimers := by
  refine ⟨rfl, ?_⟩
  have h := c4_double_start_leaks_timer (newMockMediaRecorder.start (some 1000)) (some 500) rfl
  exact h.2.2.2.2 1 1000 rfl (by decide) (by decide)

/-- C5: `stop()` is idempotent.  If the state is already `'inactive'` it is
a literal no-op (the recorder is unchanged, no notification fired);
otherwise it transitions to `'inactive'`, clears the stored handle,
cancels the stored live timer, and fires the `stopped` notification exactly
once; a second consecutive `stop()` changes nothing. -/
theorem c5_stop_idempotent (r : MockMediaRecorder) :
    (r.state = "inactive" → r.stop = r) ∧
    r.stop.stop = r.stop ∧
    (r.state ≠ "inactive" →
      r.stop.state = "inactive" ∧
      r.stop.timer = none ∧
      r.stop.events = r.events ++ ["stop"] ∧
      ∀ t, r.timer = some t →
        r.stop.liveTimers = r.liveTimers.filter (fun p => p.1 ≠ t)) := by
  refine ⟨?_, ?_, ?_⟩
  · intro h
    simp [MockMediaRecorder.stop, h]
  · by_cases h : r.state = "inactive"
    · simp [MockMediaRecorder.stop, h]
    · simp [MockMediaRecorder.stop, h]
  · intro h
    refine ⟨?_, ?_, ?_, ?_⟩
    · simp [MockMediaRecorder.stop, h]
    · simp [MockMediaRecorder.stop, h]
    · simp [MockMediaRecorder.stop, h]
    · intro t ht
      simp [MockMediaRecorder.stop, h, ht]

/-- C5 (witness): `stop()` on the freshly constructed (idle) recorder is a
no-op, and `stop()` on a started recorder reaches state `'inactive'`. -/
theorem c5_stop_idempotent_witness :
    newMockMediaRecorder.stop = newMockMediaRecorder ∧
    (newMockMediaRecorder.start none).stop.state = "inactive" := by
  refine ⟨(c5_stop_idempotent newMockMediaRecorder).1 rfl, ?_⟩
  exact ((c5_stop_idempotent (newMockMediaRecorder.start none)).2.2 (by decide)).1

/-- C10: `pause()` changes only the `state` field (to `'paused'`) and fires
the `onpause` handler; the timer fields are untouched, so after a `start()`
the synthetic-chunk emission rate is the same while paused as while
recording (and is positive); `resume()` also leaves the timers untouched;
only `stop()` cancels the stored timer. -/
theorem c10_pause_leaves_timer_live (r : MockMediaRecorder) (ts : Option Nat) :
    r.pause = { r with state := "paused", events := r.events ++ ["pause"] } ∧
    r.pause.timer = r.timer ∧
    r.pause.liveTimers = r.liveTimers ∧
    emissionsPerTick ((r.start ts).pause) = emissionsPerTick (r.start ts) ∧
    emissionsPerTick ((r.start ts).pause) = emissionsPerTick r + 1 ∧
    0 < emissionsPerTick ((r.start ts).pause) ∧
    ((r.start ts).pause).state = "paused" ∧
    r.resume.liveTimers = r.liveTimers ∧
    ((r.start ts).stop).liveTimers =
      ((r.start ts).liveTimers).filter (fun p => p.1 ≠ r.nextId) := by
  refine ⟨rfl, rfl, rfl, rfl, ?_, ?_, rfl, rfl, ?_⟩
  · simp [emissionsPerTick, MockMediaRecorder.start, MockMediaRecorder.pause]
  · simp [emissionsPerTick, MockMediaRecorder.start, MockMediaRecorder.pause]
  · simp only [MockMediaRecorder.stop, MockMediaRecorder.start]
    rw [if_neg (by simp)]

/-! ## Characterization of the playwright runner loop -/

theorem pw_foldl_tests_run (tests : List (String × StepOutcome)) :
    ∀ acc : PlaywrightResults,
      (List.foldl playwrightStep acc tests).tests_run = acc.tests_run + tests.length := by
  induction tests with
  | nil => intro acc; simp
  | cons t rest ih =>
    intro acc
    rw [List.foldl_cons, ih]
    obtain ⟨name, o⟩ := t
    cases o <;> simp [playwrightStep] <;> omega

theorem pw_foldl_failures (tests : List (String × StepOutcome)) :
    ∀ acc : PlaywrightResults,
      (List.foldl playwrightStep acc tests).failures =
        acc.failures + tests.countP (fun t => t.2.isReturnedFalse) := by
  induction tests with
  | nil => intro acc; simp
  | cons t rest ih =>
    intro acc
    rw [List.foldl_cons, ih]
    obtain ⟨name, o⟩ := t
    cases o <;>
      simp [playwrightStep, List.countP_cons, StepOutcome.isReturnedFalse] <;> omega

theorem pw_foldl_errors (tests : List (String × StepOutcome)) :
    ∀ acc : PlaywrightResults,
      (List.foldl playwrightStep acc tests).errors =
        acc.errors + tests.countP (fun t => t.2.isRaised) := by
  induction tests with
  | nil => intro acc; simp
  | cons t rest ih =>
    intro acc
    rw [List.foldl_cons, ih]
    obtain ⟨name, o⟩ := t
    cases o <;>
      simp [playwrightStep, List.countP_cons, StepOutcome.isRaised] <;> omega

theorem pw_foldl_success (tests : List (String × StepOutcome)) :
    ∀ acc : PlaywrightResults,
      (List.foldl playwrightStep acc tests).success =
        (acc.success && tests.all (fun t => t.2.isPassed)) := by
  induction tests with
  | nil => intro acc; simp
  | cons t rest ih =>
    intro acc
    rw [List.foldl_cons, ih]
    obtain ⟨name, o⟩ := t
    cases o <;> simp [playwrightStep, StepOutcome.isPassed]

theorem pw_foldl_details (tests : List (String × StepOutcome)) :
    ∀ acc : PlaywrightResults,
      (List.foldl playwrightStep acc tests).test_details =
        acc.test_details ++ tests.filterMap playwrightDetailEntry := by
  induction tests with
  | nil => intro acc; simp
  | cons t rest ih =>
    intro acc
    rw [List.foldl_cons, ih]
    obtain ⟨name, o⟩ := t
    cases o <;> simp [playwrightStep, playwrightDetailEntry]

theorem ut_foldl_fields (tests : List (String × StepOutcome)) :
    ∀ acc : UnittestResult,
      (List.foldl unittestStep acc tests).testsRun = acc.testsRun + tests.length ∧
      (List.foldl unittestStep acc tests).failures =
        acc.failures ++ tests.filterMap assertionEntry ∧
      (List.foldl unittestStep acc tests).errors =
        acc.errors ++ tests.filterMap otherErrorEntry ∧
      (List.foldl unittestStep acc tests).skipped = acc.skipped := by
  induction tests with
  | nil => intro acc; simp
  | cons t rest ih =>
    intro acc
    rw [List.foldl_cons]
    obtain ⟨hrun, hfail, herr, hskip⟩ := ih (unittestStep acc t)
    rw [hrun, hfail, herr, hskip]
    obtain ⟨name, o⟩ := t
    cases o <;> simp [unittestStep, assertionEntry, otherErrorEntry] <;> omega

/-- A scenario passes iff it neither returns `False` nor raises, so the
three per-scenario classifications of the playwright loop partition the
registered list. -/
theorem outcome_partition (tests : List (String × StepOutcome)) :
    tests.countP (fun t => t.2.isPassed) +
      tests.countP (fun t => t.2.isReturnedFalse) +
      tests.countP (fun t => t.2.isRaised) = tests.length := by
  induction tests with
  | nil => rfl
  | cons t rest ih =>
    obtain ⟨name, o⟩ := t
    cases o <;>
      simp [List.countP_cons, StepOutcome.isPassed, StepOutcome.isReturnedFalse,
        StepOutcome.isRaised] at ih ⊢ <;> omega

theorem all_passed_eq_counts (tests : List (String × StepOutcome)) :
    tests.all (fun t => t.2.isPassed) =
      (tests.countP (fun t => t.2.isReturnedFalse) == 0 &&
        tests.countP (fun t => t.2.isRaised) == 0) := by
  induction tests with
  | nil => rfl
  | cons t rest ih =>
    obtain ⟨name, o⟩ := t
    cases o <;>
      simp [List.countP_cons, List.all_cons, StepOutcome.isPassed,
        StepOutcome.isReturnedFalse, StepOutcome.isRaised] at ih ⊢ <;>
      simp [ih]

theorem detail_count (tests : List (String × StepOutcome)) :
    (tests.filterMap playwrightDetailEntry).length =
      tests.countP (fun t => t.2.isReturnedFalse) +
        tests.countP (fun t => t.2.isRaised) := by
  induction tests with
  | nil => rfl
  | cons t rest ih =>
    obtain ⟨name, o⟩ := t
    cases o <;>
      simp [List.countP_cons, playwrightDetailEntry, StepOutcome.isReturnedFalse,
        StepOutcome.isRaised] at ih ⊢ <;> omega

/-! ## Closed-form characterizations of the two runners -/

theorem playwright_tests_run_eq (tests : List (String × StepOutcome)) :
    (playwright_run_tests tests).tests_run = tests.length := by
  have h := pw_foldl_tests_run tests initialPlaywrightResults
  simpa [playwright_run_tests, initialPlaywrightResults] using h

theorem playwright_failures_eq (tests : List (String × StepOutcome)) :
    (playwright_run_tests tests).failures =
      tests.countP (fun t => t.2.isReturnedFalse) := by
  have h := pw_foldl_failures tests initialPlaywrightResults
  simpa [playwright_run_tests, initialPlaywrightResults] using h

theorem playwright_errors_eq (tests : List (String × StepOutcome)) :
    (playwright_run_tests tests).errors = tests.countP (fun t => t.2.isRaised) := by
  have h := pw_foldl_errors tests initialPlaywrightResults
  simpa [playwright_run_tests, initialPlaywrightResults] using h

theorem playwright_success_eq (tests : List (String × StepOutcome)) :
    (playwright_run_tests tests).success = tests.all (fun t => t.2.isPassed) := by
  have h := pw_foldl_success tests initialPlaywrightResults
  simpa [playwright_run_tests, initialPlaywrightResults] using h

theorem playwright_details_eq (tests : List (String × StepOutcome)) :
    (playwright_run_tests tests).test_details =
      tests.filterMap playwrightDetailEntry := by
  have h := pw_foldl_details tests initialPlaywrightResults
  simpa [playwright_run_tests, initialPlaywrightResults] using h

theorem unittest_run_eq (tests : List (String × StepOutcome)) :
    unittest_run tests =
      { testsRun := tests.length
        failures := tests.filterMap assertionEntry
        errors := tests.filterMap otherErrorEntry
        skipped := [] } := by
  obtain ⟨h1, h2, h3, h4⟩ :=
    ut_foldl_fields tests { testsRun := 0, failures := [], errors := [], skipped := [] }
  simp only [unittest_run]
  ext1 <;> simp [h1, h2, h3, h4]

theorem mem_assertionEntry {tests : List (String × StepOutcome)} {te : String × String}
    (h : te ∈ tests.filterMap assertionEntry) :
    (te.1, StepOutcome.raisedAssertion te.2) ∈ tests := by
  obtain ⟨tn, tm⟩ := te
  rcases List.mem_filterMap.1 h with ⟨⟨n, o⟩, ha, hae⟩
  cases o <;> simp [assertionEntry] at hae
  obtain ⟨h1, h2⟩ := hae
  subst h1
  subst h2
  simpa using ha

theorem mem_otherErrorEntry {tests : List (String × StepOutcome)} {te : String × String}
    (h : te ∈ tests.filterMap otherErrorEntry) :
    (te.1, StepOutcome.raisedOther te.2) ∈ tests := by
  obtain ⟨tn, tm⟩ := te
  rcases List.mem_filterMap.1 h with ⟨⟨n, o⟩, ha, hae⟩
  cases o <;> simp [otherErrorEntry] at hae
  obtain ⟨h1, h2⟩ := hae
  subst h1
  subst h2
  simpa using ha

/-- With distinct test names (the unittest methods are distinct by
construction), the name-membership lookup in the detail loop labels every
`result.failures` entry `FAIL` and every `result.errors` entry `ERROR`. -/
theorem remote_details_eq (tests : List (String × StepOutcome))
    (hnodup : (tests.map Prod.fst).Nodup) :
    remoteTestDetails (unittest_run tests) =
      (tests.filterMap assertionEntry).map (fun f => (f.1, "FAIL", f.2)) ++
      (tests.filterMap otherErrorEntry).map (fun e => (e.1, "ERROR", e.2)) := by
  rw [unittest_run_eq]
  simp only [remoteTestDetails]
  rw [List.map_append]
  congr 1
  · apply List.map_congr_left
    intro f hf
    have hany : (tests.filterMap assertionEntry).any (fun g => g.1 == f.1) = true :=
      List.any_eq_true.2 ⟨f, hf, by simp⟩
    simp [hany]
  · apply List.map_congr_left
    intro e he
    have hany : (tests.filterMap assertionEntry).any (fun g => g.1 == e.1) = false := by
      by_contra hc
      rw [Bool.not_eq_false, List.any_eq_true] at hc
      rcases hc with ⟨f, hf, hbeq⟩
      have hfe : f.1 = e.1 := by simpa using hbeq
      have hmemf := mem_assertionEntry hf
      have hmeme := mem_otherErrorEntry he
      have := List.inj_on_of_nodup_map hnodup hmemf hmeme (by simpa using hfe)
      simp at this
    simp [hany]

/-! ## Theorems about the Scenario Runner and Result Aggregator -/

/-- C1: in every run of the playwright runner the final report satisfies
`success == (failures == 0 && errors == 0)`, and likewise in the
unittest-based runners where `success` is `result.wasSuccessful()`. -/
theorem c1_success_iff_no_failures_no_errors (tests : List (String × StepOutcome)) :
    (playwright_run_tests tests).success =
      ((playwright_run_tests tests).failures == 0 &&
        (playwright_run_tests tests).errors == 0) ∧
    (remote_run_tests tests).success =
      ((remote_run_tests tests).failures == 0 &&
        (remote_run_tests tests).errors == 0) := by
  refine ⟨?_, rfl⟩
  rw [playwright_success_eq, playwright_failures_eq, playwright_errors_eq]
  exact all_passed_eq_counts tests

/-- C2: every registered scenario is attempted and classified exactly once:
`tests_run` equals the number of registered scenarios in both runner
families (even for scenarios that raise), the three classifications
partition the scenario list, and the detail map holds exactly one entry
per non-passing scenario. -/
theorem c2_one_result_per_scenario (tests : List (String × StepOutcome)) :
    (playwright_run_tests tests).tests_run = tests.length ∧
    (remote_run_tests tests).tests_run = tests.length ∧
    tests.countP (fun t => t.2.isPassed) +
      (playwright_run_tests tests).failures +
      (playwright_run_tests tests).errors = tests.length ∧
    (playwright_run_tests tests).test_details.length =
      (playwright_run_tests tests).failures + (playwright_run_tests tests).errors := by
  refine ⟨playwright_tests_run_eq tests, ?_, ?_, ?_⟩
  · show (unittest_run tests).testsRun = _
    rw [unittest_run_eq]
  · rw [playwright_failures_eq, playwright_errors_eq]
    have := outcome_partition tests
    omega
  · rw [playwright_details_eq, playwright_failures_eq, playwright_errors_eq]
    exact detail_count tests

/-- C3 (counterexample): in `playwright_ui_tests.py::run_tests` an
`AssertionError` raised by an explicit assertion (here `assert header is
not None, "Header not found"`) is caught by the single `except Exception`
clause and classified `ERROR`, not `FAIL` — `failures` stays 0 and
`errors` becomes 1. -/
theorem c3_counterexample :
    (playwright_run_tests
      [("test_teacher_interface", StepOutcome.raisedAssertion "Header not found")]).test_details =
      [("test_teacher_interface", "ERROR", "Header not found")] ∧
    (playwright_run_tests
      [("test_teacher_interface", StepOutcome.raisedAssertion "Header not found")]).failures = 0 ∧
    (playwright_run_tests
      [("test_teacher_interface", StepOutcome.raisedAssertion "Header not found")]).errors = 1 :=
  ⟨rfl, rfl, rfl⟩

/-- C3 (amended): every error raised by a scenario step is caught at the
runner boundary and converted into that scenario's recorded result, and all
remaining scenarios still execute (`tests_run` counts every registered
scenario in both runner families).  In the unittest-based runners an
assertion error is classified `FAIL` and any other exception `ERROR`; in
the playwright runner every raised exception — assertion errors included —
is classified `ERROR`, and `FAIL` is recorded only for a step that
completes returning `False`. -/
theorem c3_errors_caught_and_isolated (tests : List (String × StepOutcome))
    (hnodup : (tests.map Prod.fst).Nodup) :
    (playwright_run_tests tests).tests_run = tests.length ∧
    (remote_run_tests tests).tests_run = tests.length ∧
    (playwright_run_tests tests).test_details = tests.filterMap playwrightDetailEntry ∧
    (unittest_run tests).failures = tests.filterMap assertionEntry ∧
    (unittest_run tests).errors = tests.filterMap otherErrorEntry ∧
    remoteTestDetails (unittest_run tests) =
      (tests.filterMap assertionEntry).map (fun f => (f.1, "FAIL", f.2)) ++
      (tests.filterMap otherErrorEntry).map (fun e => (e.1, "ERROR", e.2)) := by
  refine ⟨playwright_tests_run_eq tests, ?_, playwright_details_eq tests, ?_, ?_,
    remote_details_eq tests hnodup⟩
  · show (unittest_run tests).testsRun = _
    rw [unittest_run_eq]
  · rw [unittest_run_eq]
  · rw [unittest_run_eq]

/-- C3 (witness): a concrete three-scenario run — one assertion error, one
unexpected exception, one pass — in which the unittest-based report labels
the assertion `FAIL` and the other exception `ERROR`, and the playwright
runner still attempts all three scenarios. -/
theorem c3_errors_caught_and_isolated_witness :
    remoteTestDetails (unittest_run
      [("test_01", StepOutcome.raisedAssertion "expected element not found"),
       ("test_02", StepOutcome.raisedOther "connection lost"),
       ("test_03", StepOutcome.passed)]) =
      [("test_01", "FAIL", "expected element not found"),
       ("test_02", "ERROR", "connection lost")] ∧
    (playwright_run_tests
      [("test_01", StepOutcome.raisedAssertion "expected element not found"),
       ("test_02", StepOutcome.raisedOther "connection lost"),
       ("test_03", StepOutcome.passed)]).tests_run = 3 := by
  have h := c3_errors_caught_and_isolated
    [("test_01", StepOutcome.raisedAssertion "expected element not found"),
     ("test_02", StepOutcome.raisedOther "connection lost"),
     ("test_03", StepOutcome.passed)] (by decide)
  exact ⟨h.2.2.2.2.2.trans (by decide), h.1.trans (by decide)⟩

/-- C9 (counterexample): the report dict of `playwright_ui_tests.py::run_tests`
(lines 193–199) has no `skipped` key, so the claim that every run's report
JSON contains the field `skipped` fails for the playwright runner. -/
theorem c9_counterexample : "skipped" ∉ playwrightReportKeys := by decide

/-- C9 (amended): the selenium-based runners' report JSON contains the six
fields `tests_run`, `failures`, `errors`, `skipped`, `success` and
`test_details`; the playwright runner's report contains the same fields
except `skipped`, which it omits.  In both runner families only non-passing
scenarios appear under `test_details`: every entry carries status `FAIL` or
`ERROR` and names a registered scenario whose step did not pass. -/
theorem c9_report_fields_and_details (tests : List (String × StepOutcome)) :
    "tests_run" ∈ remoteReportKeys ∧ "failures" ∈ remoteReportKeys ∧
    "errors" ∈ remoteReportKeys ∧ "skipped" ∈ remoteReportKeys ∧
    "success" ∈ remoteReportKeys ∧ "test_details" ∈ remoteReportKeys ∧
    (∀ k ∈ playwrightReportKeys, k ∈ remoteReportKeys) ∧
    "skipped" ∉ playwrightReportKeys ∧
    (∀ d ∈ (playwright_run_tests tests).test_details,
      (d.2.1 = "FAIL" ∨ d.2.1 = "ERROR") ∧
      ∃ o, (d.1, o) ∈ tests ∧ o ≠ StepOutcome.passed) ∧
    (∀ d ∈ (remote_run_tests tests).test_details,
      (d.2.1 = "FAIL" ∨ d.2.1 = "ERROR") ∧
      ∃ o, (d.1, o) ∈ tests ∧ o ≠ StepOutcome.passed) := by
  refine ⟨by decide, by decide, by decide, by decide, by decide, by decide,
    by decide, by decide, ?_, ?_⟩
  · rw [playwright_details_eq]
    intro d hd
    rcases List.mem_filterMap.1 hd with ⟨⟨n, o⟩, ha, hde⟩
    cases o <;> simp [playwrightDetailEntry] at hde
    · subst hde
      exact ⟨Or.inl rfl, StepOutcome.returnedFalse, ha, by decide⟩
    · subst hde
      exact ⟨Or.inr rfl, StepOutcome.raisedAssertion _, ha, by simp⟩
    · subst hde
      exact ⟨Or.inr rfl, StepOutcome.raisedOther _, ha, by simp⟩
  · intro d hd
    have hd' : d ∈ ((unittest_run tests).failures ++ (unittest_run tests).errors).map
        (fun te => (te.1,
          if (unittest_run tests).failures.any (fun f => f.1 == te.1) then "FAIL"
          else "ERROR", te.2)) := hd
    rcases List.mem_map.1 hd' with ⟨te, hte, hfn⟩
    subst hfn
    refine ⟨?_, ?_⟩
    · by_cases hc : (unittest_run tests).failures.any (fun f => f.1 == te.1)
      · exact Or.inl (by simp [hc])
      · exact Or.inr (by simp [hc])
    · rcases List.mem_append.1 hte with hF | hE
      · have hF' : te ∈ tests.filterMap assertionEntry := by
          rw [unittest_run_eq] at hF
          simpa using hF
        exact ⟨StepOutcome.raisedAssertion te.2, mem_assertionEntry hF', by simp⟩
      · have hE' : te ∈ tests.filterMap otherErrorEntry := by
          rw [unittest_run_eq] at hE
          simpa using hE
        exact ⟨StepOutcome.raisedOther te.2, mem_otherErrorEntry hE', by simp⟩

/-- C9 (witness): the `FAIL` entry produced by a step returning `False` in
a concrete two-scenario playwright run is a non-passing entry. -/
theorem c9_report_fields_and_details_witness :
    (("b", "FAIL", "Test returned False") : String × String × String).2.1 = "FAIL" ∨
    (("b", "FAIL", "Test returned False") : String × String × String).2.1 = "ERROR" := by
  have h := c9_report_fields_and_details
    [("a", StepOutcome.passed), ("b", StepOutcome.returnedFalse)]
  exact (h.2.2.2.2.2.2.2.2.1 ("b", "FAIL", "Test returned False") (by decide)).1

/-! ## Theorems about the Condition Poller -/

theorem waitUntilLoop_spec (pred : Nat → PredOutcome) :
    ∀ fuel start,
      ((waitUntilLoop pred fuel start).1 ≠ Except.ok () →
        (waitUntilLoop pred fuel start).2 = fuel ∧
        (waitUntilLoop pred fuel start).1 =
          Except.error (WaitError.timeoutError (start + fuel))) ∧
      ((waitUntilLoop pred fuel start).1 = Except.ok () ↔
        ∃ i, i < fuel ∧ pred (start + i) = PredOutcome.truthy) := by
  intro fuel
  induction fuel with
  | zero =>
    intro start
    refine ⟨fun _ => ⟨rfl, rfl⟩, ?_⟩
    simp [waitUntilLoop]
  | succ n ih =>
    intro start
    cases hp : pred start with
    | truthy =>
      refine ⟨fun hne => absurd (by simp [waitUntilLoop, hp]) hne, ?_⟩
      simp only [waitUntilLoop, hp]
      exact ⟨fun _ => ⟨0, by omega, by simpa using hp⟩, fun _ => trivial⟩
    | falsy =>
      obtain ⟨ih1, ih2⟩ := ih (start + 1)
      refine ⟨?_, ?_⟩
      · intro hne
        have hne' : (waitUntilLoop pred n (start + 1)).1 ≠ Except.ok () := by
          simpa [waitUntilLoop, hp] using hne
        obtain ⟨hc, he⟩ := ih1 hne'
        have harith : start + 1 + n = start + (n + 1) := by omega
        constructor
        · simp [waitUntilLoop, hp, hc]
        · simp only [waitUntilLoop, hp]
          rw [he, harith]
      · simp only [waitUntilLoop, hp]
        rw [ih2]
        constructor
        · rintro ⟨i, hi, ht⟩
          exact ⟨i + 1, by omega, by rw [show start + (i + 1) = start + 1 + i by omega]; exact ht⟩
        · rintro ⟨i, hi, ht⟩
          cases i with
          | zero => rw [Nat.add_zero] at ht; rw [hp] at ht; cases ht
          | succ j =>
            exact ⟨j, by omega, by rw [show start + 1 + j = start + (j + 1) by omega]; exact ht⟩
    | raisesError m =>
      obtain ⟨ih1, ih2⟩ := ih (start + 1)
      refine ⟨?_, ?_⟩
      · intro hne
        have hne' : (waitUntilLoop pred n (start + 1)).1 ≠ Except.ok () := by
          simpa [waitUntilLoop, hp] using hne
        obtain ⟨hc, he⟩ := ih1 hne'
        have harith : start + 1 + n = start + (n + 1) := by omega
        constructor
        · simp [waitUntilLoop, hp, hc]
        · simp only [waitUntilLoop, hp]
          rw [he, harith]
      · simp only [waitUntilLoop, hp]
        rw [ih2]
        constructor
        · rintro ⟨i, hi, ht⟩
          exact ⟨i + 1, by omega, by rw [show start + (i + 1) = start + 1 + i by omega]; exact ht⟩
        · rintro ⟨i, hi, ht⟩
          cases i with
          | zero => rw [Nat.add_zero] at ht; rw [hp] at ht; cases ht
          | succ j =>
            exact ⟨j, by omega, by rw [show start + 1 + j = start + (j + 1) by omega]; exact ht⟩

/-- C6: a predicate-raised application error never fails the wait
prematurely — it is swallowed and the predicate retried every remaining
tick: a wait that fails has evaluated the predicate on every tick of the
budget and its error is exactly `TimeoutError` (never a predicate error,
so the two are distinguishable by type); the wait succeeds iff the
predicate is truthy at some tick within the budget, and `element_exists`
reports exactly that. -/
theorem c6_condition_wait (pred : Nat → PredOutcome) (timeoutTicks : Nat) :
    (∀ e, (waitUntil pred timeoutTicks).1 = Except.error e →
      (waitUntil pred timeoutTicks).2 = timeoutTicks ∧
      e = WaitError.timeoutError timeoutTicks) ∧
    ((waitUntil pred timeoutTicks).1 = Except.ok () ↔
      ∃ i, i < timeoutTicks ∧ pred i = PredOutcome.truthy) ∧
    (element_exists pred timeoutTicks = true ↔
      ∃ i, i < timeoutTicks ∧ pred i = PredOutcome.truthy) := by
  obtain ⟨h1, h2⟩ := waitUntilLoop_spec pred timeoutTicks 0
  have hw : waitUntil pred timeoutTicks = waitUntilLoop pred timeoutTicks 0 := rfl
  refine ⟨?_, ?_, ?_⟩
  · intro e he
    have hne : (waitUntilLoop pred timeoutTicks 0).1 ≠ Except.ok () := by
      rw [hw] at he
      rw [he]
      simp
    obtain ⟨hc, herr⟩ := h1 hne
    rw [hw, hc]
    refine ⟨rfl, ?_⟩
    rw [hw, herr] at he
    have := Except.error.inj he
    simpa using this.symm
  · rw [hw, h2]
    simp
  · rw [element_exists, hw]
    cases hres : (waitUntilLoop pred timeoutTicks 0).1 with
    | ok u =>
      simp only []
      have hok : (waitUntilLoop pred timeoutTicks 0).1 = Except.ok () := by
        cases u
        exact hres
      rw [h2] at hok
      simpa using hok
    | error e =>
      simp only []
      have hne : ¬ ((waitUntilLoop pred timeoutTicks 0).1 = Except.ok ()) := by
        rw [hres]
        simp
      rw [h2] at hne
      simpa using hne

/-- C6 (witness): a predicate raising a transient error on the first two
ticks and truthy on the third makes `element_exists` succeed, and a
predicate that always raises is retried on all four ticks of the budget. -/
theorem c6_condition_wait_witness :
    (waitUntil (fun _ => PredOutcome.raisesError "no such element") 4).2 = 4 ∧
    element_exists
      (fun t => if t < 2 then PredOutcome.raisesError "stale element"
        else PredOutcome.truthy) 5 = true := by
  have h := c6_condition_wait (fun _ => PredOutcome.raisesError "no such element") 4
  have h1 := c6_condition_wait
    (fun t => if t < 2 then PredOutcome.raisesError "stale element"
      else PredOutcome.truthy) 5
  exact ⟨(h.1 (WaitError.timeoutError 4) rfl).1,
    h1.2.2.mpr ⟨2, by omega, by decide⟩⟩

/-! ## Theorems about the Session Manager -/

/-- C7 (counterexample): when both provisioning strategies fail, the error
that surfaces from `setUpClass` is the bare second exception — it does not
carry the first strategy's failure (only the printed diagnostics do), so
the claim that the fatal error carries the attempted strategies and their
individual failures is false at this input. -/
theorem c7_counterexample :
    (setUpClassAcquire (StrategyOutcome.fails "errA")
        (StrategyOutcome.fails "errB")).1 = Except.error "errB" ∧
    containsSubstr "errB" "errA" = false ∧
    ((setUpClassAcquire (StrategyOutcome.fails "errA")
        (StrategyOutcome.fails "errB")).2.any
      (fun l => containsSubstr l "errA")) = true := by
  refine ⟨rfl, by decide, by decide⟩

/-- C7 (amended): acquisition tries the two strategies in order and
returns the session of the first that succeeds; with a failing primary and
a succeeding secondary it yields a valid session, raises nothing, and both
attempts are recorded in the diagnostic output; a fatal error surfaces only
after both strategies have failed, and the surfaced error is the second
strategy's exception alone — the individual failures appear only in the
printed diagnostics. -/
theorem c7_ordered_fallback (primary secondary : StrategyOutcome) :
    (∀ s, primary = StrategyOutcome.succeeds s →
      (setUpClassAcquire primary secondary).1 = Except.ok s) ∧
    (∀ e s, primary = StrategyOutcome.fails e →
      secondary = StrategyOutcome.succeeds s →
      (setUpClassAcquire primary secondary).1 = Except.ok s ∧
      ("Error using Node.js ChromeDriver: " ++ e) ∈ (setUpClassAcquire primary secondary).2 ∧
      "Falling back to webdriver_manager..." ∈ (setUpClassAcquire primary secondary).2) ∧
    (∀ x, (setUpClassAcquire primary secondary).1 = Except.error x →
      ∃ e e2, primary = StrategyOutcome.fails e ∧
        secondary = StrategyOutcome.fails e2 ∧ x = e2 ∧
        ("Error using Node.js ChromeDriver: " ++ e) ∈ (setUpClassAcquire primary secondary).2 ∧
        ("Error with webdriver_manager: " ++ e2) ∈ (setUpClassAcquire primary secondary).2) := by
  cases primary with
  | succeeds s => simp [setUpClassAcquire]
  | fails e =>
    cases secondary with
    | succeeds s => simp [setUpClassAcquire]
    | fails e2 => simp [setUpClassAcquire]

/-- C7 (witness): failing primary, succeeding secondary — a valid session
is returned, no error is raised, and the fallback is recorded. -/
theorem c7_ordered_fallback_witness :
    (setUpClassAcquire (StrategyOutcome.fails "errA")
      (StrategyOutcome.succeeds 7)).1 = Except.ok 7 ∧
    "Falling back to webdriver_manager..." ∈
      (setUpClassAcquire (StrategyOutcome.fails "errA")
        (StrategyOutcome.succeeds 7)).2 := by
  have h := c7_ordered_fallback (StrategyOutcome.fails "errA") (StrategyOutcome.succeeds 7)
  obtain ⟨ha, hb, hc⟩ := h.2.1 "errA" 7 rfl rfl
  exact ⟨ha, hc⟩

/-! ## Theorems about scoped acquisition / guaranteed teardown -/

/-- C8: for any body whose steps create the driver at most once and never
quit it themselves (as in the source, where `webdriver.Chrome` is called
once and `driver.quit()` appears only in the `finally` block), the driver
is quit exactly once iff it was acquired — on every exit path, including
when a step raised (the exception still propagates after cleanup) — and
the server is always stopped exactly once more than the body did.
`tearDownClass` likewise quits exactly the acquired driver. -/
theorem c8_release_exactly_once (steps : List StepResult)
    (hcreate : ((runSteps steps).2.count E2EAction.createDriver) ≤ 1)
    (hquit : ((runSteps steps).2.count E2EAction.quitDriver) = 0) :
    ((run_e2e_test steps).2.count E2EAction.quitDriver =
      (runSteps steps).2.count E2EAction.createDriver) ∧
    ((run_e2e_test steps).2.count E2EAction.stopServer =
      (runSteps steps).2.count E2EAction.stopServer + 1) ∧
    (∀ m, (runSteps steps).1 = some m →
      (run_e2e_test steps).1 = Except.error m) ∧
    (tearDownClass true).count E2EAction.quitDriver = 1 ∧
    (tearDownClass false).count E2EAction.quitDriver = 0 := by
  have hdc : ((runSteps steps).2.contains E2EAction.createDriver) =
      ((runSteps steps).2.count E2EAction.createDriver == 1) := by
    by_cases hm : E2EAction.createDriver ∈ (runSteps steps).2
    · have hpos : 0 < (runSteps steps).2.count E2EAction.createDriver :=
        List.count_pos_iff.2 hm
      have : (runSteps steps).2.count E2EAction.createDriver = 1 := by omega
      simp [List.elem_iff, hm, this]
    · have : (runSteps steps).2.count E2EAction.createDriver = 0 :=
        List.count_eq_zero.2 hm
      simp [List.elem_iff, hm, this]
  refine ⟨?_, ?_, ?_, by decide, by decide⟩
  · cases hb : (runSteps steps).1 with
    | some m =>
      simp only [run_e2e_test, hb, hdc]
      by_cases h1 : (runSteps steps).2.count E2EAction.createDriver = 1
      · simp [h1, List.count_append, hquit]
      · have h0 : (runSteps steps).2.count E2EAction.createDriver = 0 := by omega
        simp [h0, List.count_append, hquit]
    | none =>
      simp only [run_e2e_test, hb, hdc]
      by_cases h1 : (runSteps steps).2.count E2EAction.createDriver = 1
      · simp [h1, List.count_append, hquit]
      · have h0 : (runSteps steps).2.count E2EAction.createDriver = 0 := by omega
        simp [h0, List.count_append, hquit]
  · cases hb : (runSteps steps).1 with
    | some m =>
      simp only [run_e2e_test, hb, hdc]
      by_cases h1 : (runSteps steps).2.count E2EAction.createDriver = 1
      · simp [h1, List.count_append]
      · have h0 : (runSteps steps).2.count E2EAction.createDriver = 0 := by omega
        simp [h0, List.count_append]
    | none =>
      simp only [run_e2e_test, hb, hdc]
      by_cases h1 : (runSteps steps).2.count E2EAction.createDriver = 1
      · simp [h1, List.count_append]
      · have h0 : (runSteps steps).2.count E2EAction.createDriver = 0 := by omega
        simp [h0, List.count_append]
  · intro m hm
    simp [run_e2e_test, hm]

/-- C8 (witness): a concrete run whose body creates the driver and then
raises — the driver is quit exactly once and the exception propagates. -/
theorem c8_release_exactly_once_witness :
    (run_e2e_test [StepResult.ok [E2EAction.createDriver],
      StepResult.raises "Could not find a record button on the page"]).2.count
        E2EAction.quitDriver = 1 ∧
    (run_e2e_test [StepResult.ok [E2EAction.createDriver],
      StepResult.raises "Could not find a record button on the page"]).1 =
      Except.error "Could not find a record button on the page" := by
  have h := c8_release_exactly_once
    [StepResult.ok [E2EAction.createDriver],
     StepResult.raises "Could not find a record button on the page"]
    (by decide) (by decide)
  exact ⟨h.1.trans (by decide),
    h.2.2.1 "Could not find a record button on the page" rfl⟩

end AIVoiceTranslator
